import Mathlib

/-!
Verification of the slip-risk analysis core of the Blazer-Ai repository
(`src/analysis.py`): the trend-indicator mapping `get_trend_indicator`
and the slip analyzer `analyze_slip_risk`.

Numbers are modelled exactly: the Python arithmetic on trend scores and
penalties is integer/rational arithmetic, embedded as `ℤ`/`ℚ`.  Python
dicts built by repeated `d[k] = d.get(k, 0) + 1` are modelled as
association lists in key-insertion order (`bump` appends a fresh key at
the end, matching CPython dict iteration order).
-/

namespace BlazerAi

/-- Pick direction of a selection (the `selection` field, `'OVER'`/`'UNDER'`
in the source). -/
inductive PickSide where
  | over : PickSide
  | under : PickSide
deriving DecidableEq, Repr

/-- One entry of a slip, as built by the UI in `streamlit_app.py` and
consumed by `analyze_slip_risk`. -/
structure Selection where
  id : String
  playerName : String
  propMarket : String
  line : ℚ
  selection : PickSide
  trend_score : ℤ
  game_id : String
deriving DecidableEq, Repr

/-- `get_trend_indicator` from `src/analysis.py`: maps the score to a
text indicator and a colour. -/
def get_trend_indicator (score : ℤ) : String × String :=
  if 3 ≤ score then ("LOCK", "green")
  else if score = 2 then ("NEUTRAL", "orange")
  else ("FADE", "red")

/-- One step of building a Python counting dict
(`d[k] = d.get(k, 0) + 1`): increment the count of `k` in place if the
key is present, otherwise append `(k, 1)` at the end (insertion order). -/
def bump {K : Type} [DecidableEq K] : List (K × Nat) → K → List (K × Nat)
  | [], k => [(k, 1)]
  | (k', c) :: rest, k =>
      if k' = k then (k', c + 1) :: rest else (k', c) :: bump rest k

/-- The counting dict built by the `for selection in slip_selections`
loops in `analyze_slip_risk`, keyed by `key`. -/
def counts_of {K : Type} [DecidableEq K] (key : Selection → K)
    (slip : List Selection) : List (K × Nat) :=
  slip.foldl (fun m s => bump m (key s)) []

/-- The key of the self-correlation grouping:
`(selection['playerName'], selection['propMarket'])`. -/
def pair_key (s : Selection) : String × String := (s.playerName, s.propMarket)

/-- `player_prop_counts` from step 1 of `analyze_slip_risk`. -/
def player_prop_counts (slip : List Selection) : List ((String × String) × Nat) :=
  counts_of pair_key slip

/-- `game_counts` from step 2 of `analyze_slip_risk`. -/
def game_counts (slip : List Selection) : List (String × Nat) :=
  counts_of (fun s => s.game_id) slip

/-- The literal warning of step 1. -/
def extreme_msg : String :=
  "EXTREME: Multiple picks from the same player/prop market (Self-Correlation)."

/-- The f-string warning of step 2, with `count` and `game_id` substituted. -/
def high_msg (count : Nat) (gid : String) : String :=
  "HIGH: " ++ toString count ++ " picks from the same game (" ++ gid ++
    "). Positive correlation risk."

/-- Step 1 of `analyze_slip_risk`: scan the pair counts; on the first
count `> 1`, add a penalty of 4, set the EXTREME warning and `break`. -/
def self_corr_step (slip : List Selection) : Nat × Option String :=
  match (player_prop_counts slip).find? (fun p => decide (1 < p.2)) with
  | some _ => (4, some extreme_msg)
  | none => (0, none)

/-- Step 2 of `analyze_slip_risk`: the `for game_id, count in
game_counts.items()` loop.  Each item with `count > 2` adds a penalty of
2 and sets the HIGH warning, but only when no warning is set yet
(`not correlation_warning`); there is no `break`, yet the guard makes
at most one item fire. -/
def game_corr_loop : List (String × Nat) → Nat → Option String → Nat × Option String
  | [], pen, w => (pen, w)
  | (gid, c) :: rest, pen, w =>
      if 2 < c ∧ w = none then
        game_corr_loop rest (pen + 2) (some (high_msg c gid))
      else
        game_corr_loop rest pen w

/-- The `(correlation_penalty, correlation_warning)` pair after steps 1
and 2 of `analyze_slip_risk`. -/
def correlation_result (slip : List Selection) : Nat × Option String :=
  game_corr_loop (game_counts slip) (self_corr_step slip).1 (self_corr_step slip).2

/-- The `correlation_penalty` accumulated by `analyze_slip_risk`. -/
def correlation_penalty (slip : List Selection) : Nat :=
  (correlation_result slip).1

/-- The `correlation_warning` kept by `analyze_slip_risk`. -/
def correlation_warning (slip : List Selection) : Option String :=
  (correlation_result slip).2

/-- Step 3 of `analyze_slip_risk`: `trend_strength =
sum(trend_score) / len(slip_selections)` (exact arithmetic mean). -/
def trend_strength (slip : List Selection) : ℚ :=
  ((slip.map (fun s => s.trend_score)).sum : ℚ) / (slip.length : ℚ)

/-- `analyze_slip_risk` from `src/analysis.py`.  Returns
`(risk_score, warning, trend_strength)`; the empty slip returns
`(0, None, 0)` before any computation. -/
def analyze_slip_risk (slip : List Selection) : ℚ × Option String × ℚ :=
  match slip with
  | [] => (0, none, 0)
  | _ :: _ =>
      (max 0 (10 - trend_strength slip - (correlation_penalty slip : ℚ)),
       correlation_warning slip, trend_strength slip)

/-- Number of selections of `slip` whose `key` equals `k` (the count the
Python dict accumulates for key `k`). -/
def count_key {K : Type} [DecidableEq K] (key : Selection → K)
    (slip : List Selection) (k : K) : Nat :=
  (slip.filter (fun s => decide (key s = k))).length

/-- Some `(playerName, propMarket)` pair occurs in more than one
selection of the slip. -/
def has_self_correlation (slip : List Selection) : Prop :=
  ∃ s ∈ slip, 1 < count_key pair_key slip (pair_key s)

instance (slip : List Selection) : Decidable (has_self_correlation slip) :=
  inferInstanceAs (Decidable (∃ s ∈ slip, 1 < count_key pair_key slip (pair_key s)))

/-- The count stored in an association list for key `k` (`0` when absent). -/
def lookup_count {K : Type} [DecidableEq K] : List (K × Nat) → K → Nat
  | [], _ => 0
  | (k', c) :: rest, k => if k' = k then c else lookup_count rest k

lemma lookup_bump {K : Type} [DecidableEq K] (m : List (K × Nat)) (k k' : K) :
    lookup_count (bump m k) k' = lookup_count m k' + (if k = k' then 1 else 0) := by
  induction m with
  | nil =>
      simp only [bump, lookup_count]
      by_cases h : k = k' <;> simp [h]
  | cons p rest ih =>
      obtain ⟨k'', c⟩ := p
      by_cases h : k'' = k
      · subst h
        by_cases h' : k'' = k' <;> simp [bump, lookup_count, h', if_pos rfl]
      · by_cases h' : k'' = k'
        · subst h'
          have hne : ¬ k = k'' := fun hk => h hk.symm
          simp [bump, lookup_count, h, hne]
        · simp [bump, lookup_count, h, h', ih]

lemma mem_keys_bump {K : Type} [DecidableEq K] (m : List (K × Nat)) (k k' : K) :
    k' ∈ (bump m k).map Prod.fst ↔ k' ∈ m.map Prod.fst ∨ k' = k := by
  induction m with
  | nil => simp [bump]
  | cons p rest ih =>
      obtain ⟨k'', c⟩ := p
      by_cases h : k'' = k
      · subst h; simp [bump]; tauto
      · simp [bump, h, ih]; tauto

lemma nodup_keys_bump {K : Type} [DecidableEq K] (m : List (K × Nat)) (k : K)
    (hm : (m.map Prod.fst).Nodup) : ((bump m k).map Prod.fst).Nodup := by
  induction m with
  | nil => simp [bump]
  | cons p rest ih =>
      obtain ⟨k'', c⟩ := p
      simp only [List.map_cons, List.nodup_cons] at hm
      by_cases h : k'' = k
      · subst h
        simpa [bump, List.nodup_cons] using hm
      · simp only [bump, if_neg h, List.map_cons, List.nodup_cons]
        refine ⟨?_, ih hm.2⟩
        intro hmem
        rcases (mem_keys_bump rest k k'').mp hmem with h1 | h1
        · exact hm.1 h1
        · exact h h1

lemma lookup_of_mem_nodup {K : Type} [DecidableEq K] (m : List (K × Nat)) (k : K) (c : Nat)
    (hm : (m.map Prod.fst).Nodup) (hmem : (k, c) ∈ m) : lookup_count m k = c := by
  induction m with
  | nil => cases hmem
  | cons p rest ih =>
      obtain ⟨k'', c''⟩ := p
      simp only [List.map_cons, List.nodup_cons] at hm
      rcases List.mem_cons.mp hmem with h | h
      · injection h with h1 h2
        subst h1; subst h2
        simp [lookup_count]
      · have hk : k'' ≠ k := by
          intro he
          exact hm.1 (he ▸ List.mem_map_of_mem Prod.fst h)
        simp [lookup_count, hk, ih hm.2 h]

lemma lookup_foldl_bump {K : Type} [DecidableEq K] (key : Selection → K)
    (slip : List Selection) :
    ∀ (m : List (K × Nat)) (k : K),
      lookup_count (slip.foldl (fun m s => bump m (key s)) m) k
        = lookup_count m k + count_key key slip k := by
  induction slip with
  | nil => intro m k; simp [count_key]
  | cons s rest ih =>
      intro m k
      simp only [List.foldl_cons]
      rw [ih, lookup_bump]
      simp only [count_key, List.filter_cons]
      by_cases h : key s = k
      · simp [h]
        omega
      · simp [h]

lemma mem_keys_foldl_bump {K : Type} [DecidableEq K] (key : Selection → K)
    (slip : List Selection) :
    ∀ (m : List (K × Nat)) (k : K),
      k ∈ ((slip.foldl (fun m s => bump m (key s)) m).map Prod.fst)
        ↔ k ∈ m.map Prod.fst ∨ k ∈ slip.map key := by
  induction slip with
  | nil => intro m k; simp
  | cons s rest ih =>
      intro m k
      simp only [List.foldl_cons, List.map_cons, List.mem_cons]
      rw [ih, mem_keys_bump]
      tauto

lemma nodup_keys_foldl_bump {K : Type} [DecidableEq K] (key : Selection → K)
    (slip : List Selection) :
    ∀ (m : List (K × Nat)), (m.map Prod.fst).Nodup →
      ((slip.foldl (fun m s => bump m (key s)) m).map Prod.fst).Nodup := by
  induction slip with
  | nil => intro m hm; simpa using hm
  | cons s rest ih =>
      intro m hm
      simp only [List.foldl_cons]
      exact ih _ (nodup_keys_bump m (key s) hm)

lemma lookup_counts_of {K : Type} [DecidableEq K] (key : Selection → K)
    (slip : List Selection) (k : K) :
    lookup_count (counts_of key slip) k = count_key key slip k := by
  simpa [counts_of, lookup_count] using lookup_foldl_bump key slip [] k

lemma mem_keys_counts_of {K : Type} [DecidableEq K] (key : Selection → K)
    (slip : List Selection) (k : K) :
    k ∈ (counts_of key slip).map Prod.fst ↔ k ∈ slip.map key := by
  simpa [counts_of] using mem_keys_foldl_bump key slip [] k

lemma nodup_keys_counts_of {K : Type} [DecidableEq K] (key : Selection → K)
    (slip : List Selection) : ((counts_of key slip).map Prod.fst).Nodup := by
  simpa [counts_of] using nodup_keys_foldl_bump key slip [] (by simp)

/-- Full characterisation of the counting-dict entries: `(k, c)` is an
entry iff `k` is a key of some selection and `c` is its exact
multiplicity in the slip. -/
lemma mem_counts_of_iff {K : Type} [DecidableEq K] (key : Selection → K)
    (slip : List Selection) (k : K) (c : Nat) :
    (k, c) ∈ counts_of key slip ↔ k ∈ slip.map key ∧ c = count_key key slip k := by
  constructor
  · intro h
    have hk : k ∈ (counts_of key slip).map Prod.fst := List.mem_map_of_mem Prod.fst h
    refine ⟨(mem_keys_counts_of key slip k).mp hk, ?_⟩
    have := lookup_of_mem_nodup _ k c (nodup_keys_counts_of key slip) h
    rw [← this, lookup_counts_of]
  · rintro ⟨hk, rfl⟩
    have hk' : k ∈ (counts_of key slip).map Prod.fst :=
      (mem_keys_counts_of key slip k).mpr hk
    obtain ⟨⟨k', c'⟩, hp, hfst⟩ := List.mem_map.mp hk'
    obtain rfl : k = k' := hfst.symm
    have hc : count_key key slip k = c' := by
      have h2 := lookup_of_mem_nodup _ k c' (nodup_keys_counts_of key slip) hp
      rwa [lookup_counts_of] at h2
    rwa [hc]

/-- A counting dict has an entry above threshold `n` iff some selection's
key occurs more than `n` times in the slip. -/
lemma exists_big_count_iff {K : Type} [DecidableEq K] (key : Selection → K)
    (slip : List Selection) (n : Nat) :
    (∃ p ∈ counts_of key slip, n < p.2) ↔
      ∃ s ∈ slip, n < count_key key slip (key s) := by
  constructor
  · rintro ⟨⟨k, c⟩, hp, hc⟩
    obtain ⟨hk, rfl⟩ := (mem_counts_of_iff key slip k c).mp hp
    obtain ⟨s, hs, rfl⟩ := List.mem_map.mp hk
    exact ⟨s, hs, hc⟩
  · rintro ⟨s, hs, hc⟩
    refine ⟨(key s, count_key key slip (key s)), ?_, hc⟩
    exact (mem_counts_of_iff key slip (key s) _).mpr
      ⟨List.mem_map_of_mem key hs, rfl⟩

lemma self_corr_step_of_dup (slip : List Selection)
    (h : has_self_correlation slip) :
    self_corr_step slip = (4, some extreme_msg) := by
  obtain ⟨s, hs, hc⟩ := h
  have hsome : ((player_prop_counts slip).find? (fun p => decide (1 < p.2))).isSome := by
    rw [List.find?_isSome]
    obtain ⟨p, hp, hc'⟩ := (exists_big_count_iff pair_key slip 1).mpr ⟨s, hs, hc⟩
    exact ⟨p, hp, decide_eq_true hc'⟩
  obtain ⟨p, hp⟩ := Option.isSome_iff_exists.mp hsome
  simp [self_corr_step, hp]

lemma self_corr_step_of_no_dup (slip : List Selection)
    (h : ¬ has_self_correlation slip) :
    self_corr_step slip = (0, none) := by
  have hnone : (player_prop_counts slip).find? (fun p => decide (1 < p.2)) = none := by
    rw [List.find?_eq_none]
    intro p hp hd
    apply h
    rw [decide_eq_true_iff] at hd
    exact (exists_big_count_iff pair_key slip 1).mp ⟨p, hp, hd⟩
  simp [self_corr_step, hnone]

/-- Once the warning is set, the step-2 loop changes nothing: the guard
`not correlation_warning` fails on every remaining item. -/
lemma game_corr_loop_some (l : List (String × Nat)) (pen : Nat) (m : String) :
    game_corr_loop l pen (some m) = (pen, some m) := by
  induction l with
  | nil => rfl
  | cons p rest ih =>
      obtain ⟨g, c⟩ := p
      simp [game_corr_loop, ih]

/-- With no warning set, the step-2 loop fires exactly on the first item
whose count exceeds 2 (and then nothing further fires). -/
lemma game_corr_loop_none (l : List (String × Nat)) (pen : Nat) :
    game_corr_loop l pen none =
      match l.find? (fun p => decide (2 < p.2)) with
      | some p => (pen + 2, some (high_msg p.2 p.1))
      | none => (pen, none) := by
  induction l with
  | nil => rfl
  | cons p rest ih =>
      obtain ⟨g, c⟩ := p
      rw [List.find?_cons]
      by_cases h : 2 < c
      · simp [game_corr_loop, h, game_corr_loop_some]
      · simp [game_corr_loop, h, ih]

/-- Unfolding of `analyze_slip_risk` on a non-empty slip. -/
lemma analyze_eq_of_ne_nil (slip : List Selection) (h : slip ≠ []) :
    analyze_slip_risk slip =
      (max 0 (10 - trend_strength slip - (correlation_penalty slip : ℚ)),
       correlation_warning slip, trend_strength slip) := by
  cases slip with
  | nil => exact absurd rfl h
  | cons s rest => rfl

lemma ne_nil_of_self_correlation (slip : List Selection)
    (h : has_self_correlation slip) : slip ≠ [] := by
  obtain ⟨s, hs, -⟩ := h
  exact List.ne_nil_of_mem hs

lemma correlation_result_of_dup (slip : List Selection)
    (h : has_self_correlation slip) :
    correlation_result slip = (4, some extreme_msg) := by
  rw [correlation_result, self_corr_step_of_dup slip h]
  exact game_corr_loop_some (game_counts slip) 4 extreme_msg

lemma correlation_result_of_no_dup (slip : List Selection)
    (h : ¬ has_self_correlation slip) :
    correlation_result slip =
      match (game_counts slip).find? (fun p => decide (2 < p.2)) with
      | some p => (2, some (high_msg p.2 p.1))
      | none => (0, none) := by
  rw [correlation_result, self_corr_step_of_no_dup slip h]
  cases hf : (game_counts slip).find? (fun p => decide (2 < p.2)) with
  | none => simp [game_corr_loop_none, hf]
  | some p => simp [game_corr_loop_none, hf]

/-- Helper to build a selection record in examples. -/
def mk_sel (pn pm : String) (ts : ℤ) (gid : String) : Selection :=
  { id := pn ++ "/" ++ pm ++ "/" ++ gid, playerName := pn, propMarket := pm,
    line := 20, selection := PickSide.over, trend_score := ts, game_id := gid }

/-- Two picks on the same player and market (trend scores 3 and 2,
distinct games): the self-correlation example of the spec. -/
def pair_dup_slip : List Selection :=
  [mk_sel "LeBron James" "Player Points" 3 "LAL@DEN",
   mk_sel "LeBron James" "Player Points" 2 "BOS@NYK"]

/-- Three picks from one game with distinct player/market pairs (trend
scores 3, 3, 3): the game-correlation example of the spec. -/
def game_heavy_slip : List Selection :=
  [mk_sel "LeBron James" "Player Points" 3 "LAL@DEN",
   mk_sel "Nikola Jokic" "Player Rebounds" 3 "LAL@DEN",
   mk_sel "Jayson Tatum" "Player Assists" 3 "LAL@DEN"]

/-- Two unrelated picks: no duplicate pair, no game with more than two
selections. -/
def clean_slip : List Selection :=
  [mk_sel "LeBron James" "Player Points" 3 "LAL@DEN",
   mk_sel "Luka Doncic" "Player Assists" 2 "DAL@PHX"]

/-- A slip with three picks from one game, two of which duplicate a
player/market pair: both correlation triggers hold at once. -/
def combined_slip : List Selection :=
  [mk_sel "LeBron James" "Player Points" 3 "LAL@DEN",
   mk_sel "LeBron James" "Player Points" 2 "LAL@DEN",
   mk_sel "Nikola Jokic" "Player Rebounds" 3 "LAL@DEN"]

/-- C5: `analyze([])` returns exactly `(0, None, 0)`. -/
theorem analyze_empty_slip : analyze_slip_risk [] = (0, none, 0) := rfl

/-- C6: `get_trend_indicator` is total over the integers and returns
LOCK/green for scores at least 3, NEUTRAL/orange at exactly 2, and
FADE/red at 1 or below; every integer lands in one of the three cases. -/
theorem trend_indicator_cases (score : ℤ) :
    (3 ≤ score → get_trend_indicator score = ("LOCK", "green")) ∧
    (score = 2 → get_trend_indicator score = ("NEUTRAL", "orange")) ∧
    (score ≤ 1 → get_trend_indicator score = ("FADE", "red")) ∧
    (get_trend_indicator score = ("LOCK", "green") ∨
     get_trend_indicator score = ("NEUTRAL", "orange") ∨
     get_trend_indicator score = ("FADE", "red")) := by
  unfold get_trend_indicator
  refine ⟨fun h => by rw [if_pos h], fun h => ?_, fun h => ?_, ?_⟩
  · rw [if_neg (by omega), if_pos h]
  · rw [if_neg (by omega), if_neg (by omega)]
  · split_ifs <;> simp

/-- Witness for C6 at the four scores of the spec's test table. -/
theorem trend_indicator_cases_witness :
    get_trend_indicator 3 = ("LOCK", "green") ∧
    get_trend_indicator 2 = ("NEUTRAL", "orange") ∧
    get_trend_indicator 1 = ("FADE", "red") ∧
    get_trend_indicator 0 = ("FADE", "red") :=
  ⟨(trend_indicator_cases 3).1 (by norm_num),
   (trend_indicator_cases 2).2.1 rfl,
   (trend_indicator_cases 1).2.2.1 (by norm_num),
   (trend_indicator_cases 0).2.2.1 (by norm_num)⟩

/-- C10: both exported functions are pure maps of their argument: equal
inputs give equal outputs (no state outside the argument is read). -/
theorem analyze_indicator_deterministic :
    (∀ s₁ s₂ : List Selection, s₁ = s₂ →
        analyze_slip_risk s₁ = analyze_slip_risk s₂) ∧
    (∀ a b : ℤ, a = b → get_trend_indicator a = get_trend_indicator b) :=
  ⟨fun _ _ h => congrArg analyze_slip_risk h,
   fun _ _ h => congrArg get_trend_indicator h⟩

/-- Witness for C10 at concrete equal inputs. -/
theorem analyze_indicator_deterministic_witness :
    analyze_slip_risk pair_dup_slip = analyze_slip_risk pair_dup_slip ∧
    get_trend_indicator 2 = get_trend_indicator 2 :=
  ⟨analyze_indicator_deterministic.1 pair_dup_slip pair_dup_slip rfl,
   analyze_indicator_deterministic.2 2 2 rfl⟩

/-- C2: whenever some (playerName, propMarket) pair occurs in more than
one selection, the accumulated penalty is exactly 4 (added once) and the
returned warning is the EXTREME self-correlation message; on the spec's
two-pick example the result is (3.5, EXTREME, 2.5). -/
theorem self_correlation_penalty_and_warning :
    (∀ slip : List Selection, has_self_correlation slip →
        correlation_penalty slip = 4 ∧
        (analyze_slip_risk slip).2.1 = some extreme_msg) ∧
    analyze_slip_risk pair_dup_slip = (7 / 2, some extreme_msg, 5 / 2) := by
  constructor
  · intro slip h
    have hres := correlation_result_of_dup slip h
    have hne := ne_nil_of_self_correlation slip h
    refine ⟨by rw [correlation_penalty, hres], ?_⟩
    rw [analyze_eq_of_ne_nil slip hne]
    simp [correlation_warning, hres]
  · simp [analyze_slip_risk, pair_dup_slip, trend_strength, correlation_penalty,
      correlation_result, self_corr_step, game_corr_loop, game_counts,
      player_prop_counts, counts_of, bump, pair_key, mk_sel, correlation_warning]
    norm_num

/-- Witness for C2 at the spec's self-correlated two-pick slip. -/
theorem self_correlation_penalty_and_warning_witness :
    correlation_penalty pair_dup_slip = 4 ∧
    (analyze_slip_risk pair_dup_slip).2.1 = some extreme_msg :=
  self_correlation_penalty_and_warning.1 pair_dup_slip (by decide)

/-- C9: a duplicated pair fixes the total penalty at 4 even when some
game also has more than two picks (the EXTREME warning suppresses the
step-2 penalty, so 4 + 2 = 6 never occurs), and over all inputs the
penalty only takes the values 0, 2 and 4. -/
theorem penalty_is_never_six :
    (∀ slip : List Selection, has_self_correlation slip →
        correlation_penalty slip = 4 ∧
        (analyze_slip_risk slip).1 = max 0 (10 - trend_strength slip - 4)) ∧
    (∀ slip : List Selection,
        correlation_penalty slip = 0 ∨ correlation_penalty slip = 2 ∨
          correlation_penalty slip = 4) := by
  constructor
  · intro slip h
    have hres := correlation_result_of_dup slip h
    have hne := ne_nil_of_self_correlation slip h
    have hpen : correlation_penalty slip = 4 := by rw [correlation_penalty, hres]
    refine ⟨hpen, ?_⟩
    rw [analyze_eq_of_ne_nil slip hne, hpen]
    norm_num
  · intro slip
    by_cases h : has_self_correlation slip
    · right; right
      rw [correlation_penalty, correlation_result_of_dup slip h]
    · cases hf : (game_counts slip).find? (fun p => decide (2 < p.2)) with
      | none =>
          left
          rw [correlation_penalty, correlation_result_of_no_dup slip h, hf]
      | some p =>
          right; left
          rw [correlation_penalty, correlation_result_of_no_dup slip h, hf]

/-- Witness for C9 at a slip where both correlation triggers hold: the
penalty is still 4, not 6. -/
theorem penalty_is_never_six_witness :
    correlation_penalty combined_slip = 4 ∧
    (analyze_slip_risk combined_slip).1 =
      max 0 (10 - trend_strength combined_slip - 4) :=
  penalty_is_never_six.1 combined_slip (by decide)

/-- C3: with no duplicated player/market pair, a game with more than two
picks yields penalty exactly 2 and the HIGH warning built from the first
qualifying entry of the game-counting dict (insertion order), whose count
is that game's exact multiplicity; a set EXTREME warning is never
replaced by a HIGH one; the spec's three-pick example gives (5, HIGH, 3). -/
theorem game_correlation_penalty_and_warning :
    (∀ slip : List Selection, ¬ has_self_correlation slip →
      (∃ s ∈ slip, 2 < count_key (fun t => t.game_id) slip s.game_id) →
        correlation_penalty slip = 2 ∧
        ∃ p, (game_counts slip).find? (fun q => decide (2 < q.2)) = some p ∧
          (analyze_slip_risk slip).2.1 = some (high_msg p.2 p.1) ∧
          p.2 = count_key (fun t => t.game_id) slip p.1) ∧
    (∀ slip : List Selection, has_self_correlation slip →
        correlation_warning slip = some extreme_msg) ∧
    analyze_slip_risk game_heavy_slip = (5, some (high_msg 3 "LAL@DEN"), 3) := by
  refine ⟨?_, ?_, ?_⟩
  · intro slip hnd hg
    have hne : slip ≠ [] := by
      obtain ⟨s, hs, -⟩ := hg
      exact List.ne_nil_of_mem hs
    have hsome : ((game_counts slip).find? (fun q => decide (2 < q.2))).isSome := by
      rw [List.find?_isSome]
      obtain ⟨p, hp, hc⟩ := (exists_big_count_iff (fun s => s.game_id) slip 2).mpr hg
      exact ⟨p, hp, decide_eq_true hc⟩
    obtain ⟨p, hf⟩ := Option.isSome_iff_exists.mp hsome
    obtain ⟨g, c⟩ := p
    have hres : correlation_result slip = (2, some (high_msg c g)) := by
      rw [correlation_result_of_no_dup slip hnd, hf]
    refine ⟨by rw [correlation_penalty, hres], (g, c), hf, ?_, ?_⟩
    · rw [analyze_eq_of_ne_nil slip hne]
      simp [correlation_warning, hres]
    · have hmem := List.mem_of_find?_eq_some hf
      exact ((mem_counts_of_iff (fun s => s.game_id) slip g c).mp hmem).2
  · intro slip h
    rw [correlation_warning, correlation_result_of_dup slip h]
  · simp [analyze_slip_risk, game_heavy_slip, trend_strength, correlation_penalty,
      correlation_result, self_corr_step, game_corr_loop, game_counts,
      player_prop_counts, counts_of, bump, pair_key, mk_sel, correlation_warning]
    norm_num

/-- Witness for C3 at the spec's three-picks-one-game slip. -/
theorem game_correlation_penalty_and_warning_witness :
    correlation_penalty game_heavy_slip = 2 ∧
    ∃ p, (game_counts game_heavy_slip).find? (fun q => decide (2 < q.2)) = some p ∧
      (analyze_slip_risk game_heavy_slip).2.1 = some (high_msg p.2 p.1) ∧
      p.2 = count_key (fun t => t.game_id) game_heavy_slip p.1 :=
  game_correlation_penalty_and_warning.1 game_heavy_slip (by decide) (by decide)

/-- C1 counterexample: at the empty slip the returned risk score is 0,
while the clamped formula over the returned trend strength and the
accumulated penalty (both 0) evaluates to 10. -/
theorem risk_formula_fails_on_empty :
    (analyze_slip_risk []).1 ≠
      max 0 (10 - trend_strength [] - (correlation_penalty [] : ℚ)) := by
  simp [analyze_slip_risk, trend_strength, correlation_penalty,
    correlation_result, self_corr_step, game_counts, player_prop_counts,
    counts_of, game_corr_loop]

/-- C1 (amended): for every non-empty slip the returned risk score equals
10 - trend_strength - correlation_penalty clamped to a minimum of 0, and
for every slip (the empty one included) it is nonnegative. -/
theorem risk_score_clamped_formula :
    (∀ slip : List Selection, slip ≠ [] →
        (analyze_slip_risk slip).1 =
          max 0 (10 - trend_strength slip - (correlation_penalty slip : ℚ))) ∧
    (∀ slip : List Selection, 0 ≤ (analyze_slip_risk slip).1) := by
  constructor
  · intro slip h
    rw [analyze_eq_of_ne_nil slip h]
  · intro slip
    cases slip with
    | nil => simp [analyze_slip_risk]
    | cons s rest =>
        rw [analyze_eq_of_ne_nil _ (List.cons_ne_nil s rest)]
        exact le_max_left 0 _

/-- Witness for C1 (amended) at a concrete non-empty slip. -/
theorem risk_score_clamped_formula_witness :
    (analyze_slip_risk clean_slip).1 =
      max 0 (10 - trend_strength clean_slip - (correlation_penalty clean_slip : ℚ)) :=
  risk_score_clamped_formula.1 clean_slip (by decide)

/-- C4: for every non-empty slip the returned trend strength is the exact
arithmetic mean of the selections' trend scores. -/
theorem trend_strength_is_mean :
    ∀ slip : List Selection, slip ≠ [] →
      (analyze_slip_risk slip).2.2 =
        ((slip.map (fun s => s.trend_score)).sum : ℚ) / (slip.length : ℚ) := by
  intro slip h
  rw [analyze_eq_of_ne_nil slip h]
  rfl

/-- Witness for C4 at the spec's two-pick example (mean 5/2). -/
theorem trend_strength_is_mean_witness :
    (analyze_slip_risk pair_dup_slip).2.2 =
      ((pair_dup_slip.map (fun s => s.trend_score)).sum : ℚ) /
        (pair_dup_slip.length : ℚ) :=
  trend_strength_is_mean pair_dup_slip (by decide)

/-- C7 counterexample: the empty slip has no duplicate pair and no game
with more than two picks (vacuously) and returns a null warning, yet its
risk score 0 differs from max 0 (10 - trend_strength) = 10. -/
theorem clean_formula_fails_on_empty :
    ¬ has_self_correlation ([] : List Selection) ∧
    (∀ s ∈ ([] : List Selection),
        count_key (fun t => t.game_id) [] s.game_id ≤ 2) ∧
    (analyze_slip_risk []).2.1 = none ∧
    (analyze_slip_risk []).1 ≠ max 0 (10 - trend_strength []) := by
  refine ⟨by decide, by simp, rfl, ?_⟩
  simp [analyze_slip_risk, trend_strength]

/-- C7 (amended): for every NON-empty slip with no duplicated
player/market pair and no game occurring in more than two selections, the
warning is null and the risk score is max 0 (10 - trend_strength); the
empty slip instead returns (0, none, 0). -/
theorem clean_slip_no_warning :
    ∀ slip : List Selection, slip ≠ [] → ¬ has_self_correlation slip →
      (∀ s ∈ slip, count_key (fun t => t.game_id) slip s.game_id ≤ 2) →
        (analyze_slip_risk slip).2.1 = none ∧
        (analyze_slip_risk slip).1 = max 0 (10 - trend_strength slip) := by
  intro slip hne hnd hg
  have hf : (game_counts slip).find? (fun q => decide (2 < q.2)) = none := by
    rw [List.find?_eq_none]
    intro p hp
    obtain ⟨g, c⟩ := p
    obtain ⟨hgmem, rfl⟩ := (mem_counts_of_iff (fun s => s.game_id) slip g c).mp hp
    obtain ⟨s, hs, rfl⟩ := List.mem_map.mp hgmem
    simp only [decide_eq_true_iff]
    exact Nat.not_lt.mpr (hg s hs)
  have hres : correlation_result slip = (0, none) := by
    rw [correlation_result_of_no_dup slip hnd, hf]
  rw [analyze_eq_of_ne_nil slip hne]
  constructor
  · simp [correlation_warning, hres]
  · simp [correlation_penalty, hres]

/-- Witness for C7 (amended) at a concrete clean two-pick slip. -/
theorem clean_slip_no_warning_witness :
    (analyze_slip_risk clean_slip).2.1 = none ∧
    (analyze_slip_risk clean_slip).1 = max 0 (10 - trend_strength clean_slip) :=
  clean_slip_no_warning clean_slip (by decide) (by decide) (by decide)

lemma length_le_sum_trend (slip : List Selection)
    (h : ∀ s ∈ slip, 1 ≤ s.trend_score) :
    (slip.length : ℚ) ≤ (slip.map (fun s => (s.trend_score : ℚ))).sum := by
  induction slip with
  | nil => simp
  | cons s rest ih =>
      simp only [List.map_cons, List.sum_cons, List.length_cons]
      have h1 : (1 : ℚ) ≤ (s.trend_score : ℚ) := by
        exact_mod_cast h s (List.mem_cons_self s rest)
      have h2 := ih (fun t ht => h t (List.mem_cons_of_mem s ht))
      push_cast
      linarith

/-- C8: if every trend score lies in {1, 2, 3}, the returned risk score
never exceeds 10, and every non-empty such slip has trend strength ≥ 1
(with the penalty a natural number, hence ≥ 0), so no upper clamp is
needed. -/
theorem risk_score_at_most_ten :
    ∀ slip : List Selection,
      (∀ s ∈ slip, s.trend_score = 1 ∨ s.trend_score = 2 ∨ s.trend_score = 3) →
        (analyze_slip_risk slip).1 ≤ 10 ∧
        (slip ≠ [] → 1 ≤ trend_strength slip) := by
  intro slip h
  have hts : slip ≠ [] → 1 ≤ trend_strength slip := by
    intro hne
    have hlen : 0 < slip.length := List.length_pos.mpr hne
    have hsum := length_le_sum_trend slip
      (fun s hs => by rcases h s hs with h1 | h1 | h1 <;> omega)
    rw [trend_strength, one_le_div (by exact_mod_cast hlen)]
    exact hsum
  refine ⟨?_, hts⟩
  by_cases hne : slip = []
  · subst hne
    norm_num [analyze_slip_risk]
  · rw [analyze_eq_of_ne_nil slip hne]
    have h1 := hts hne
    have h2 : (0 : ℚ) ≤ (correlation_penalty slip : ℚ) := Nat.cast_nonneg _
    refine max_le (by norm_num) (by linarith)

/-- Witness for C8 at the spec's two-pick example (scores 3 and 2). -/
theorem risk_score_at_most_ten_witness :
    (analyze_slip_risk pair_dup_slip).1 ≤ 10 ∧
    (pair_dup_slip ≠ [] → 1 ≤ trend_strength pair_dup_slip) :=
  risk_score_at_most_ten pair_dup_slip (by decide)

end BlazerAi
